import Mathlib

/-!
Verification development for the FinSight loan-amortization engine.

The Python source (backend/calculos.py, backend/abonos.py, avance 1/tasas.py)
is embedded shallowly: pure numeric functions become Lean functions over a
linear ordered field (instantiated at the rationals for the loops that only
use field operations, and at the reals for the rate-conversion path, which
uses real exponentiation with fractional exponents).  Dates are modelled as
day offsets from the start date (the source adds a fixed number of days per
period to a parsed date and formats it back; the offset carries the same
information).  Python floats are modelled by exact field arithmetic;
`decimal.Decimal` rounding with ROUND_HALF_UP becomes exact half-away-from-zero
rounding to two decimal places.
-/

namespace FinSight

/-- Payment/rate frequencies, from the keys of FRECUENCIAS in backend/calculos.py. -/
inductive Frecuencia
  | diaria
  | quincenal
  | mensual
  | bimestral
  | trimestral
  | cuatrimestral
  | semestral
  | anual
deriving DecidableEq

/-- FRECUENCIAS (backend/calculos.py): months equivalent of each frequency. -/
def Frecuencia.meses : Frecuencia → ℚ
  | .diaria => 1 / 30
  | .quincenal => 1 / 2
  | .mensual => 1
  | .bimestral => 2
  | .trimestral => 3
  | .cuatrimestral => 4
  | .semestral => 6
  | .anual => 12

/-- FRECUENCIAS_DIAS (backend/calculos.py): days equivalent of each frequency. -/
def Frecuencia.dias : Frecuencia → ℕ
  | .diaria => 1
  | .quincenal => 15
  | .mensual => 30
  | .bimestral => 60
  | .trimestral => 90
  | .cuatrimestral => 120
  | .semestral => 180
  | .anual => 365

/-- The tipo_tasa string parameter of generar_tabla_amortizacion. -/
inductive TipoTasa
  | nominal
  | efectiva
deriving DecidableEq

/-- The tipo_pago string parameter of generar_tabla_amortizacion. -/
inductive TipoPago
  | anticipada
  | vencida
deriving DecidableEq

/-- convertir_nominal_a_efectiva (backend/calculos.py): (1 + r/m)^m - 1. -/
def convertir_nominal_a_efectiva {α : Type} [LinearOrderedField α]
    (tasa_nominal : α) (m : ℕ) : α :=
  (1 + tasa_nominal / m) ^ m - 1

/-- convertir_anticipada_a_vencida (backend/calculos.py): ia / (1 + ia). -/
def convertir_anticipada_a_vencida {α : Type} [LinearOrderedField α]
    (tasa_anticipada : α) : α :=
  tasa_anticipada / (1 + tasa_anticipada)

/-- TasaInteres.anticipada_a_vencida (avance 1/tasas.py): t / (1 - t). -/
def TasaInteres.anticipada_a_vencida {α : Type} [LinearOrderedField α] (t : α) : α :=
  t / (1 - t)

/-- TasaInteres.vencida_a_anticipada (avance 1/tasas.py): t / (1 + t). -/
def TasaInteres.vencida_a_anticipada {α : Type} [LinearOrderedField α] (t : α) : α :=
  t / (1 + t)

/-- convertir_tasa_efectiva (backend/calculos.py): month-based frequency
equivalence, (1 + tasa)^(meses_destino / meses_origen) - 1, with a real
(fractional) exponent. -/
noncomputable def convertir_tasa_efectiva (tasa : ℝ)
    (frecuencia_origen frecuencia_destino : Frecuencia) : ℝ :=
  (1 + tasa) ^ (((frecuencia_destino.meses / frecuencia_origen.meses : ℚ) : ℝ)) - 1

/-- calcular_cuota_frances (backend/calculos.py): the fixed French-method
installment.  Total version used by the schedule generators; its divisions are
never by zero on the inputs those generators supply (rate ≥ 0, n ≥ 1). -/
def calcular_cuota_frances {α : Type} [LinearOrderedField α]
    (principal tasa_periodo : α) (n_periodos : ℕ) : α :=
  if tasa_periodo = 0 then principal / n_periodos
  else principal * (tasa_periodo * (1 + tasa_periodo) ^ n_periodos) /
    ((1 + tasa_periodo) ^ n_periodos - 1)

/-- calcular_cuota_frances (backend/calculos.py) with Python's failure
behaviour made explicit: the period count is an arbitrary integer (Python int)
and a division by zero (ZeroDivisionError) is `none`.  Python raises exactly
when dividing by zero: principal / 0 in the zero-rate branch, 0.0 ** n for
negative n when 1 + tasa = 0, and a zero annuity denominator. -/
def calcular_cuota_francesE (principal tasa_periodo : ℚ) (n_periodos : ℤ) : Option ℚ :=
  if tasa_periodo = 0 then
    if n_periodos = 0 then none else some (principal / (n_periodos : ℚ))
  else if 1 + tasa_periodo = 0 ∧ n_periodos < 0 then none
  else if (1 + tasa_periodo) ^ n_periodos - 1 = 0 then none
  else some (principal * (tasa_periodo * (1 + tasa_periodo) ^ n_periodos) /
    ((1 + tasa_periodo) ^ n_periodos - 1))

/-- redondear_decimal (backend/calculos.py) with its default of 2 decimal
places (every call site uses the default): round half away from zero to
cents, the exact meaning of decimal.ROUND_HALF_UP. -/
def redondear_decimal {α : Type} [LinearOrderedField α] [FloorRing α] (valor : α) : α :=
  if 0 ≤ valor then ((⌊valor * 100 + 1 / 2⌋ : ℤ) : α) / 100
  else -(((⌊-valor * 100 + 1 / 2⌋ : ℤ) : α) / 100)

/-- One row of an amortization table: the dict appended to `filas` by the
generators.  `fecha` is the day offset of the payment date from the start
date. -/
structure Fila (α : Type) where
  periodo : ℕ
  fecha : ℤ
  cuota : α
  interes : α
  abono_capital : α
  abono_extra : α
  saldo : α
deriving DecidableEq

/-- n_periodos = int(plazo_meses / meses_por_periodo) in
generar_tabla_amortizacion. -/
def nPeriodos (plazo_meses : ℕ) (frecuencia_pago : Frecuencia) : ℕ :=
  (⌊(plazo_meses : ℚ) / frecuencia_pago.meses⌋).toNat

/-- dias_a_sumar = int(meses_por_periodo * 30) in the generators. -/
def diasPorPeriodo (frecuencia_pago : Frecuencia) : ℤ :=
  ⌊frecuencia_pago.meses * 30⌋

/-- The period loop of generar_tabla_amortizacion (backend/calculos.py,
lines 204-240), recursing on the number of periods still to produce
(`rem + 1` remaining means the current period is the last one when
`rem = 0`, which is when the final-period snap-to-zero applies).  Emits a
row per period and stops early when the running balance falls to ≤ 0. -/
def genLoop {α : Type} [LinearOrderedField α] [FloorRing α]
    (tasa_periodo cuota : α) (dias : ℤ) :
    ℕ → ℕ → ℤ → α → List (Fila α)
  | 0, _, _, _ => []
  | rem + 1, periodo, fecha, saldo =>
    let interes := saldo * tasa_periodo
    let abono_capital := cuota - interes
    let saldo1 := saldo - abono_capital
    let saldo2 := if rem = 0 ∧ |saldo1| < 1 / 100 then 0 else saldo1
    let fecha_pago := fecha + dias
    let fila : Fila α := ⟨periodo, fecha_pago, redondear_decimal cuota,
      redondear_decimal interes, redondear_decimal abono_capital, 0,
      redondear_decimal (max 0 saldo2)⟩
    if saldo2 ≤ 0 then [fila]
    else fila :: genLoop tasa_periodo cuota dias rem (periodo + 1) fecha_pago saldo2

/-- Steps 1-3 of generar_tabla_amortizacion (backend/calculos.py, lines
174-194): percentage to decimal, nominal to effective (with the compounding
count m_map.get(frecuencia_tasa, 12)), anticipated to due, then frequency
conversion to the payment period. -/
noncomputable def tasaPeriodoDe (tasa : ℝ) (tipo_tasa : TipoTasa) (tipo_pago : TipoPago)
    (frecuencia_pago frecuencia_tasa : Frecuencia) : ℝ :=
  let tasa_decimal := tasa / 100
  let m : ℕ := match frecuencia_tasa with
    | .mensual => 12
    | .trimestral => 4
    | .semestral => 2
    | .anual => 1
    | _ => 12
  let tasa_efectiva_anual := match tipo_tasa with
    | .nominal => convertir_nominal_a_efectiva tasa_decimal m
    | .efectiva => tasa_decimal
  let tasa_efectiva_anual2 := match tipo_pago with
    | .anticipada => convertir_anticipada_a_vencida tasa_efectiva_anual
    | .vencida => tasa_efectiva_anual
  if frecuencia_tasa = .anual then
    convertir_tasa_efectiva tasa_efectiva_anual2 .anual frecuencia_pago
  else
    convertir_tasa_efectiva tasa_efectiva_anual2 frecuencia_tasa frecuencia_pago

/-- generar_tabla_amortizacion (backend/calculos.py): rate pipeline, period
count, fixed installment, then the emission loop.  The start date is day
offset 0. -/
noncomputable def generar_tabla_amortizacion (monto tasa : ℝ) (tipo_tasa : TipoTasa)
    (tipo_pago : TipoPago) (plazo_meses : ℕ) (frecuencia_pago : Frecuencia)
    (frecuencia_tasa : Frecuencia) : List (Fila ℝ) :=
  let tasa_periodo := tasaPeriodoDe tasa tipo_tasa tipo_pago frecuencia_pago frecuencia_tasa
  let n_periodos := nPeriodos plazo_meses frecuencia_pago
  let cuota := calcular_cuota_frances monto tasa_periodo n_periodos
  genLoop tasa_periodo cuota (diasPorPeriodo frecuencia_pago) n_periodos 1 0 monto

/-- One entry of the abonos list: {"periodo": int, "monto": float}. -/
structure Abono where
  periodo : ℕ
  monto : ℚ
deriving DecidableEq

/-- abonos_dict = {a["periodo"]: a["monto"] for a in abonos} followed by
abonos_dict.get(periodo, 0.0): a later list entry for the same period
overwrites an earlier one (dict keying is last-write-wins). -/
def abonosDict (abonos : List Abono) (p : ℕ) : ℚ :=
  (((abonos.filter (fun a => a.periodo = p)).getLast?).map Abono.monto).getD 0

/-- One iteration of the abono replay loops of backend/abonos.py, keeping the
unrounded working values: the balance before the payment, the installment in
force, the interest, the principal portion after absorbing any negative
overshoot, the extraordinary payment, and the clamped balance after the
payment. -/
structure Paso where
  periodo : ℕ
  fecha : ℤ
  saldo_previo : ℚ
  cuota : ℚ
  interes : ℚ
  abono_capital : ℚ
  abono_extra : ℚ
  saldo : ℚ
deriving DecidableEq

/-- The row the abono replay loops append to `filas` for one step: every
monetary field rounded to cents at emission time. -/
def Paso.toFila (p : Paso) : Fila ℚ :=
  ⟨p.periodo, p.fecha, redondear_decimal p.cuota, redondear_decimal p.interes,
   redondear_decimal p.abono_capital, redondear_decimal p.abono_extra,
   redondear_decimal (max 0 p.saldo)⟩

/-- The shared while loop of aplicar_abonos_reducir_cuota and
aplicar_abonos_reducir_plazo (backend/abonos.py); the two source functions
are textually identical except that only the first recomputes the
installment after an extraordinary payment, selected here by `recalcula`.
The loop guard `saldo > 0.01 and periodo <= n_periodos_inicial * 2` is
modelled by the balance test plus a fuel argument initialized to
2 * n_periodos_inicial. -/
def abonosLoop (tasa_periodo : ℚ) (lookup : ℕ → ℚ) (n_periodos_inicial : ℕ)
    (recalcula : Bool) (dias : ℤ) :
    ℕ → ℕ → ℤ → ℚ → ℚ → List Paso
  | 0, _, _, _, _ => []
  | fuel + 1, periodo, fecha, saldo, cuota =>
    if 1 / 100 < saldo then
      let interes := saldo * tasa_periodo
      let ac := cuota - interes
      let extra := lookup periodo
      let saldo1 := saldo - ac - extra
      let ac2 := if saldo1 < 0 then ac + saldo1 else ac
      let saldo2 := if saldo1 < 0 then 0 else saldo1
      let fecha2 := fecha + dias
      let paso : Paso := ⟨periodo, fecha2, saldo, cuota, interes, ac2, extra, saldo2⟩
      let restantes := n_periodos_inicial - periodo
      let cuota2 := if recalcula ∧ 0 < extra ∧ 1 / 100 < saldo2 ∧ 0 < restantes then
          calcular_cuota_frances saldo2 tasa_periodo restantes
        else cuota
      paso :: abonosLoop tasa_periodo lookup n_periodos_inicial recalcula dias
        fuel (periodo + 1) fecha2 saldo2 cuota2
    else []

/-- aplicar_abonos_reducir_cuota (backend/abonos.py): replay with the
reduce-installment policy.  The start date is day offset 0. -/
def aplicar_abonos_reducir_cuota (saldo_inicial tasa_periodo : ℚ)
    (n_periodos_inicial : ℕ) (abonos : List Abono)
    (frecuencia_pago : Frecuencia) : List (Fila ℚ) :=
  let cuota := calcular_cuota_frances saldo_inicial tasa_periodo n_periodos_inicial
  (abonosLoop tasa_periodo (abonosDict abonos) n_periodos_inicial true
    (diasPorPeriodo frecuencia_pago) (2 * n_periodos_inicial) 1 0 saldo_inicial cuota).map
    Paso.toFila

/-- aplicar_abonos_reducir_plazo (backend/abonos.py): replay with the
reduce-term policy (the installment is never recomputed). -/
def aplicar_abonos_reducir_plazo (saldo_inicial tasa_periodo : ℚ)
    (n_periodos_inicial : ℕ) (abonos : List Abono)
    (frecuencia_pago : Frecuencia) : List (Fila ℚ) :=
  let cuota := calcular_cuota_frances saldo_inicial tasa_periodo n_periodos_inicial
  (abonosLoop tasa_periodo (abonosDict abonos) n_periodos_inicial false
    (diasPorPeriodo frecuencia_pago) (2 * n_periodos_inicial) 1 0 saldo_inicial cuota).map
    Paso.toFila

/-- The opcion_recalculo string parameter of recalcular_tabla_con_abonos. -/
inductive OpcionRecalculo
  | reducir_cuota
  | reducir_plazo
deriving DecidableEq

/-- The row loop of recalcular_tabla_con_abonos (backend/calculos.py, lines
270-303): iterates over the rows of the original table with a running
balance and installment; a negative balance is clamped to zero WITHOUT
adjusting the principal portion. -/
def recalcLoop (tasa_periodo : ℚ) (lookup : ℕ → ℚ) (n_total : ℕ)
    (opcion : OpcionRecalculo) :
    List (Fila ℚ) → ℚ → ℚ → List (Fila ℚ)
  | [], _, _ => []
  | row :: resto, saldo, cuota_actual =>
    let interes := saldo * tasa_periodo
    let abono_capital := cuota_actual - interes
    let abono_extra := lookup row.periodo
    let saldo1 := saldo - abono_capital - abono_extra
    let saldo2 := if saldo1 < 0 then 0 else saldo1
    let fila : Fila ℚ := ⟨row.periodo, row.fecha, redondear_decimal cuota_actual,
      redondear_decimal interes, redondear_decimal abono_capital,
      redondear_decimal abono_extra, redondear_decimal (max 0 saldo2)⟩
    let restantes := n_total - row.periodo
    let cuota2 := if 0 < abono_extra ∧ 0 < saldo2 ∧ opcion = .reducir_cuota ∧ 0 < restantes then
        calcular_cuota_frances saldo2 tasa_periodo restantes
      else cuota_actual
    if saldo2 ≤ 0 then [fila]
    else fila :: recalcLoop tasa_periodo lookup n_total opcion resto saldo2 cuota2

/-- recalcular_tabla_con_abonos (backend/calculos.py): reconstructs the
initial balance from the first row and replays over the original rows.  The
source indexes row 0 unconditionally (raising on an empty table); the empty
case is mapped to an empty result and is not used by any theorem below. -/
def recalcular_tabla_con_abonos (tabla_original : List (Fila ℚ)) (abonos : List Abono)
    (tasa_periodo : ℚ) (opcion : OpcionRecalculo) : List (Fila ℚ) :=
  match tabla_original with
  | [] => []
  | r0 :: _ =>
    recalcLoop tasa_periodo (abonosDict abonos) tabla_original.length opcion
      tabla_original (r0.saldo + r0.abono_capital) r0.cuota

/-- The savings metrics dict returned by calcular_ahorro_por_abonos. -/
structure Ahorro where
  ahorro_intereses : ℚ
  reduccion_plazo_periodos : ℤ
  total_intereses_sin_abonos : ℚ
  total_intereses_con_abonos : ℚ
  total_pagado_sin_abonos : ℚ
  total_pagado_con_abonos : ℚ

/-- calcular_ahorro_por_abonos (backend/abonos.py): column sums of the two
tables and their differences. -/
def calcular_ahorro_por_abonos (tabla_sin_abonos tabla_con_abonos : List (Fila ℚ)) :
    Ahorro :=
  let total_pagado_sin := (tabla_sin_abonos.map Fila.cuota).sum
  let total_intereses_sin := (tabla_sin_abonos.map Fila.interes).sum
  let total_pagado_con := (tabla_con_abonos.map Fila.cuota).sum +
    (tabla_con_abonos.map Fila.abono_extra).sum
  let total_intereses_con := (tabla_con_abonos.map Fila.interes).sum
  ⟨redondear_decimal (total_intereses_sin - total_intereses_con),
   (tabla_sin_abonos.length : ℤ) - (tabla_con_abonos.length : ℤ),
   redondear_decimal total_intereses_sin,
   redondear_decimal total_intereses_con,
   redondear_decimal total_pagado_sin,
   redondear_decimal total_pagado_con⟩

/-- Proof device (not from the source): the outstanding balance that a fixed
installment `cuota` at period rate `tasa` retires in exactly `m` periods.
For a zero rate this is m * cuota. -/
def valorPresente {α : Type} [LinearOrderedField α] (cuota tasa : α) (m : ℕ) : α :=
  if tasa = 0 then m * cuota
  else cuota * ((1 + tasa) ^ m - 1) / (tasa * (1 + tasa) ^ m)

end FinSight

namespace FinSight

variable {α : Type} [LinearOrderedField α] [FloorRing α]

theorem redondear_nonneg {a : α} (ha : 0 ≤ a) : 0 ≤ redondear_decimal a := by
  rw [redondear_decimal, if_pos ha]
  have h : (0 : ℤ) ≤ ⌊a * 100 + 1 / 2⌋ := by
    rw [Int.le_floor]
    push_cast
    nlinarith
  have h2 : (0 : α) ≤ ((⌊a * 100 + 1 / 2⌋ : ℤ) : α) := by exact_mod_cast h
  exact div_nonneg h2 (by norm_num)

theorem redondear_mono {a b : α} (hab : a ≤ b) :
    redondear_decimal a ≤ redondear_decimal b := by
  unfold redondear_decimal
  rcases le_or_lt 0 a with ha | ha
  · have hb : 0 ≤ b := le_trans ha hab
    rw [if_pos ha, if_pos hb]
    have h := Int.floor_le_floor (show a * 100 + 1 / 2 ≤ b * 100 + 1 / 2 by linarith)
    have h2 : ((⌊a * 100 + 1 / 2⌋ : ℤ) : α) ≤ ((⌊b * 100 + 1 / 2⌋ : ℤ) : α) := by
      exact_mod_cast h
    linarith
  · rcases le_or_lt 0 b with hb | hb
    · rw [if_neg (not_le.mpr ha), if_pos hb]
      have h1 : (0 : ℤ) ≤ ⌊-a * 100 + 1 / 2⌋ := by
        rw [Int.le_floor]; push_cast; nlinarith
      have h2 : (0 : ℤ) ≤ ⌊b * 100 + 1 / 2⌋ := by
        rw [Int.le_floor]; push_cast; nlinarith
      have h1a : (0 : α) ≤ ((⌊-a * 100 + 1 / 2⌋ : ℤ) : α) := by exact_mod_cast h1
      have h2a : (0 : α) ≤ ((⌊b * 100 + 1 / 2⌋ : ℤ) : α) := by exact_mod_cast h2
      have h3 := div_nonneg h1a (show (0 : α) ≤ 100 by norm_num)
      have h4 := div_nonneg h2a (show (0 : α) ≤ 100 by norm_num)
      linarith
    · rw [if_neg (not_le.mpr ha), if_neg (not_le.mpr hb)]
      have h := Int.floor_le_floor
        (show -b * 100 + 1 / 2 ≤ -a * 100 + 1 / 2 by linarith)
      have h2 : ((⌊-b * 100 + 1 / 2⌋ : ℤ) : α) ≤ ((⌊-a * 100 + 1 / 2⌋ : ℤ) : α) := by
        exact_mod_cast h
      linarith

theorem redondear_zero : redondear_decimal (0 : α) = 0 := by
  rw [redondear_decimal, if_pos le_rfl]
  have h : ⌊(0 : α) * 100 + 1 / 2⌋ = 0 := by
    rw [Int.floor_eq_iff]
    norm_num
  rw [h]
  norm_num

/-- Claim C6: composing the conversion anticipated-to-due, r / (1 + r)
(convertir_anticipada_a_vencida in backend/calculos.py), with the conversion
due-to-anticipated, r / (1 - r) (TasaInteres.anticipada_a_vencida in
avance 1/tasas.py), returns the original rate exactly for every r in
(0, 0.99). -/
theorem C6_roundtrip (r : ℚ) (h1 : 0 < r) (h2 : r < 99 / 100) :
    TasaInteres.anticipada_a_vencida (convertir_anticipada_a_vencida r) = r := by
  unfold TasaInteres.anticipada_a_vencida convertir_anticipada_a_vencida
  have hr : (0 : ℚ) < 1 + r := by linarith
  have h3 : 1 - r / (1 + r) = 1 / (1 + r) := by field_simp
  rw [h3, div_div, mul_one_div_cancel (ne_of_gt hr), div_one]

theorem C6_witness :
    TasaInteres.anticipada_a_vencida (convertir_anticipada_a_vencida (1 / 2 : ℚ)) = 1 / 2 :=
  C6_roundtrip (1 / 2) (by norm_num) (by norm_num)

/-- Claim C8 (counterexample): with periodCount = -1 (which is ≤ 0),
principal 1000 and period rate 1/10, calcular_cuota_frances returns the
numeric value -1000 instead of raising a domain error. -/
theorem C8_counterexample :
    (-1 : ℤ) ≤ 0 ∧ calcular_cuota_francesE 1000 (1 / 10) (-1) = some (-1000) := by
  constructor
  · decide
  · norm_num [calcular_cuota_francesE]

/-- Claim C8 (amended): the fixed-installment computation raises a domain
error (ZeroDivisionError) exactly at periodCount = 0, for every principal
and rate; for strictly negative periodCount and nonnegative rate it instead
returns a numeric value. -/
theorem C8_amended :
    (∀ p t : ℚ, calcular_cuota_francesE p t 0 = none) ∧
    (∀ (p t : ℚ) (n : ℤ), 0 ≤ t → n < 0 →
      (calcular_cuota_francesE p t n).isSome = true) := by
  constructor
  · intro p t
    unfold calcular_cuota_francesE
    by_cases ht : t = 0
    · rw [if_pos ht, if_pos rfl]
    · rw [if_neg ht, if_neg (by simp), if_pos (by rw [zpow_zero]; ring)]
  · intro p t n ht hn
    unfold calcular_cuota_francesE
    by_cases ht0 : t = 0
    · rw [if_pos ht0, if_neg (by omega)]
      rfl
    · have htpos : 0 < t := lt_of_le_of_ne ht (Ne.symm ht0)
      have h1t : (1 : ℚ) < 1 + t := by linarith
      obtain ⟨m, rfl⟩ : ∃ m : ℕ, n = -((m : ℤ) + 1) := ⟨(-n - 1).toNat, by omega⟩
      have hlt : (1 + t) ^ (-((m : ℤ) + 1)) < 1 := by
        rw [zpow_neg]
        rw [inv_lt_one_iff]
        right
        have : ((m : ℤ) + 1) = ((m + 1 : ℕ) : ℤ) := by push_cast; ring
        rw [this, zpow_natCast]
        exact one_lt_pow h1t (by omega)
      rw [if_neg ht0, if_neg (by push_neg; intro h; exact absurd h (by nlinarith)),
        if_neg (by nlinarith)]
      rfl

theorem C8_witness :
    calcular_cuota_francesE 5 7 0 = none ∧
    (calcular_cuota_francesE 5 (1 / 2) (-3)).isSome = true :=
  ⟨C8_amended.1 5 7, C8_amended.2 5 (1 / 2) (-3) (by norm_num) (by norm_num)⟩

theorem abonosLoop_length_le (tasa : ℚ) (lookup : ℕ → ℚ) (n : ℕ) (b : Bool) (dias : ℤ) :
    ∀ (fuel periodo : ℕ) (fecha : ℤ) (saldo cuota : ℚ),
    (abonosLoop tasa lookup n b dias fuel periodo fecha saldo cuota).length ≤ fuel := by
  intro fuel
  induction fuel with
  | zero => intro periodo fecha saldo cuota; simp [abonosLoop]
  | succ k ih =>
    intro periodo fecha saldo cuota
    rw [abonosLoop]
    split
    · simp only [List.length_cons]
      exact Nat.succ_le_succ (ih _ _ _ _)
    · simp

/-- Claim C9: both abono replay strategies iterate at most
2 x nominalPeriodCount times (the while-loop guard periodo <= n * 2), so
the returned schedule never has more than 2 x nominalPeriodCount rows, for
every input whatsoever. -/
theorem C9_iteration_bound (saldo_inicial tasa_periodo : ℚ) (n : ℕ)
    (abonos : List Abono) (f : Frecuencia) :
    (aplicar_abonos_reducir_cuota saldo_inicial tasa_periodo n abonos f).length ≤ 2 * n ∧
    (aplicar_abonos_reducir_plazo saldo_inicial tasa_periodo n abonos f).length ≤ 2 * n := by
  constructor
  · rw [aplicar_abonos_reducir_cuota, List.length_map]
    exact abonosLoop_length_le _ _ _ _ _ _ _ _ _ _
  · rw [aplicar_abonos_reducir_plazo, List.length_map]
    exact abonosLoop_length_le _ _ _ _ _ _ _ _ _ _

theorem valorPresente_zero (cuota tasa : α) : valorPresente cuota tasa 0 = 0 := by
  unfold valorPresente
  split <;> simp

theorem valorPresente_succ {cuota tasa : α} (ht : 0 ≤ tasa) (m : ℕ) :
    valorPresente cuota tasa (m + 1) * (1 + tasa) - cuota = valorPresente cuota tasa m := by
  unfold valorPresente
  rcases eq_or_lt_of_le ht with h0 | hpos
  · rw [if_pos h0.symm, if_pos h0.symm, ← h0]
    push_cast
    ring
  · rw [if_neg (ne_of_gt hpos), if_neg (ne_of_gt hpos)]
    have h1 : (0 : α) < 1 + tasa := by linarith
    have h2 : (1 + tasa) ^ m ≠ 0 := by positivity
    have h3 : (1 + tasa) ^ (m + 1) ≠ 0 := by positivity
    field_simp
    ring

theorem valorPresente_nonneg {cuota tasa : α} (ht : 0 ≤ tasa) (hc : 0 ≤ cuota) (m : ℕ) :
    0 ≤ valorPresente cuota tasa m := by
  unfold valorPresente
  split
  · exact mul_nonneg (Nat.cast_nonneg m) hc
  · rename_i h
    have hpos : 0 < tasa := lt_of_le_of_ne ht (Ne.symm h)
    have h1 : (0 : α) < 1 + tasa := by linarith
    have h2 : (1 : α) ≤ (1 + tasa) ^ m := one_le_pow₀ (by linarith)
    have h3 : (0 : α) < tasa * (1 + tasa) ^ m := by positivity
    exact div_nonneg (by nlinarith) (le_of_lt h3)

theorem valorPresente_pos {cuota tasa : α} (ht : 0 ≤ tasa) (hc : 0 < cuota) {m : ℕ}
    (hm : 1 ≤ m) : 0 < valorPresente cuota tasa m := by
  unfold valorPresente
  split
  · have hm2 : (0 : α) < m := by exact_mod_cast hm
    exact mul_pos hm2 hc
  · rename_i h
    have hpos : 0 < tasa := lt_of_le_of_ne ht (Ne.symm h)
    have h1 : (0 : α) < 1 + tasa := by linarith
    have h2 : 1 < (1 + tasa) ^ m := one_lt_pow₀ (by linarith) (by omega)
    exact div_pos (by nlinarith) (by positivity)

theorem valorPresente_mono {c c' tasa : α} (ht : 0 ≤ tasa) (hcc : c ≤ c') (m : ℕ) :
    valorPresente c tasa m ≤ valorPresente c' tasa m := by
  unfold valorPresente
  split
  · exact mul_le_mul_of_nonneg_left hcc (Nat.cast_nonneg m)
  · rename_i h
    have hpos : 0 < tasa := lt_of_le_of_ne ht (Ne.symm h)
    have h1 : (0 : α) < 1 + tasa := by linarith
    have h2 : (1 : α) ≤ (1 + tasa) ^ m := one_le_pow₀ (by linarith)
    have h3 : (0 : α) < tasa * (1 + tasa) ^ m := by positivity
    rw [div_le_div_iff_of_pos_right h3]
    have h4 : (0 : α) ≤ (1 + tasa) ^ m - 1 := by linarith
    exact mul_le_mul_of_nonneg_right hcc h4

theorem cuota_PV {principal tasa : α} (ht : 0 ≤ tasa) {n : ℕ} (hn : 1 ≤ n) :
    valorPresente (calcular_cuota_frances principal tasa n) tasa n = principal := by
  unfold valorPresente calcular_cuota_frances
  have hn0 : (n : α) ≠ 0 := Nat.cast_ne_zero.mpr (by omega)
  rcases eq_or_lt_of_le ht with h0 | hpos
  · rw [if_pos h0.symm, if_pos h0.symm]
    field_simp
  · rw [if_neg (ne_of_gt hpos), if_neg (ne_of_gt hpos)]
    have h1 : (0 : α) < 1 + tasa := by linarith
    have h2 : 1 < (1 + tasa) ^ n := one_lt_pow₀ (by linarith) (by omega)
    have h3 : (1 + tasa) ^ n ≠ 0 := by positivity
    have h4 : (1 + tasa) ^ n - 1 ≠ 0 := by linarith
    field_simp

theorem PV_cuota {cuota tasa : α} (ht : 0 ≤ tasa) {m : ℕ} (hm : 1 ≤ m) :
    calcular_cuota_frances (valorPresente cuota tasa m) tasa m = cuota := by
  unfold valorPresente calcular_cuota_frances
  have hm0 : (m : α) ≠ 0 := Nat.cast_ne_zero.mpr (by omega)
  rcases eq_or_lt_of_le ht with h0 | hpos
  · rw [if_pos h0.symm, if_pos h0.symm]
    field_simp
  · rw [if_neg (ne_of_gt hpos), if_neg (ne_of_gt hpos)]
    have h1 : (0 : α) < 1 + tasa := by linarith
    have h2 : 1 < (1 + tasa) ^ m := one_lt_pow₀ (by linarith) (by omega)
    have h3 : (1 + tasa) ^ m ≠ 0 := by positivity
    have h4 : (1 + tasa) ^ m - 1 ≠ 0 := by linarith
    field_simp

theorem cuota_pos {principal tasa : α} (ht : 0 ≤ tasa) (hp : 0 < principal) {n : ℕ}
    (hn : 1 ≤ n) : 0 < calcular_cuota_frances principal tasa n := by
  unfold calcular_cuota_frances
  rcases eq_or_lt_of_le ht with h0 | hpos
  · rw [if_pos h0.symm]
    have hn2 : (0 : α) < n := by exact_mod_cast hn
    positivity
  · rw [if_neg (ne_of_gt hpos)]
    have h1 : (0 : α) < 1 + tasa := by linarith
    have h2 : 1 < (1 + tasa) ^ n := one_lt_pow₀ (by linarith) (by omega)
    have h3 : (0 : α) < tasa * (1 + tasa) ^ n := by positivity
    exact div_pos (by nlinarith) (by linarith)

theorem cuota_mono {p p' tasa : α} (ht : 0 ≤ tasa) (hpp : p ≤ p') {n : ℕ}
    (hn : 1 ≤ n) : calcular_cuota_frances p tasa n ≤ calcular_cuota_frances p' tasa n := by
  unfold calcular_cuota_frances
  rcases eq_or_lt_of_le ht with h0 | hpos
  · rw [if_pos h0.symm, if_pos h0.symm]
    have hn2 : (0 : α) < n := by exact_mod_cast hn
    gcongr
  · rw [if_neg (ne_of_gt hpos), if_neg (ne_of_gt hpos)]
    have h1 : (0 : α) < 1 + tasa := by linarith
    have h2 : 1 < (1 + tasa) ^ n := one_lt_pow₀ (by linarith) (by omega)
    have h3 : (0 : α) < (1 + tasa) ^ n - 1 := by linarith
    rw [div_le_div_iff_of_pos_right h3]
    have h4 : (0 : α) ≤ tasa * (1 + tasa) ^ n := by positivity
    exact mul_le_mul_of_nonneg_right hpp h4

theorem cuota_ge_interes {principal tasa : α} (ht : 0 ≤ tasa) (hp : 0 ≤ principal) {n : ℕ}
    (hn : 1 ≤ n) : principal * tasa ≤ calcular_cuota_frances principal tasa n := by
  unfold calcular_cuota_frances
  rcases eq_or_lt_of_le ht with h0 | hpos
  · rw [if_pos h0.symm, ← h0, mul_zero]
    have hn2 : (0 : α) < n := by exact_mod_cast hn
    positivity
  · rw [if_neg (ne_of_gt hpos)]
    have h1 : (0 : α) < 1 + tasa := by linarith
    have h2 : 1 < (1 + tasa) ^ n := one_lt_pow₀ (by linarith) (by omega)
    have h3 : (0 : α) < (1 + tasa) ^ n - 1 := by linarith
    rw [le_div_iff₀ h3]
    have h4 : (0 : α) ≤ principal * tasa := mul_nonneg hp (le_of_lt hpos)
    nlinarith

theorem abonosLoop_absorcion (tasa : ℚ) (lookup : ℕ → ℚ) (n : ℕ) (b : Bool) (dias : ℤ) :
    ∀ (fuel periodo : ℕ) (fecha : ℤ) (saldo cuota : ℚ),
    ∀ paso ∈ abonosLoop tasa lookup n b dias fuel periodo fecha saldo cuota,
      0 ≤ paso.saldo ∧
      (paso.saldo_previo - (paso.cuota - paso.interes) - paso.abono_extra < 0 →
        paso.saldo = 0 ∧ paso.abono_capital = paso.saldo_previo - paso.abono_extra) := by
  intro fuel
  induction fuel with
  | zero =>
    intro periodo fecha saldo cuota paso hp
    simp [abonosLoop] at hp
  | succ k ih =>
    intro periodo fecha saldo cuota paso hp
    simp only [abonosLoop] at hp
    by_cases hg : 1 / 100 < saldo
    · rw [if_pos hg] at hp
      rcases List.mem_cons.mp hp with h | h
      · subst h
        constructor
        · simp only
          split
          · exact le_refl 0
          · rename_i hnot
            exact le_of_not_lt hnot
        · intro hover
          simp only at hover ⊢
          rw [if_pos hover, if_pos hover]
          exact ⟨rfl, by ring⟩
      · exact ih _ _ _ _ paso h
    · rw [if_neg hg] at hp
      simp at hp

theorem abonosLoop_length_bound {tasa : ℚ} (htasa : 0 < tasa) {lookup : ℕ → ℚ}
    (hlook : ∀ p, 0 ≤ lookup p) {n : ℕ} (b : Bool) (dias : ℤ) :
    ∀ (fuel periodo : ℕ) (fecha : ℤ) (saldo cuota : ℚ),
      0 < cuota → saldo ≤ valorPresente cuota tasa (n + 1 - periodo) →
      (abonosLoop tasa lookup n b dias fuel periodo fecha saldo cuota).length ≤
        n + 1 - periodo := by
  intro fuel
  induction fuel with
  | zero =>
    intro periodo fecha saldo cuota hc hs
    simp [abonosLoop]
  | succ k ih =>
    intro periodo fecha saldo cuota hc hs
    simp only [abonosLoop]
    split
    · rename_i hg
      have hpn : periodo ≤ n := by
        by_contra hcon
        have h0 : n + 1 - periodo = 0 := by omega
        rw [h0, valorPresente_zero] at hs
        linarith
      have hm : n + 1 - periodo = (n - periodo) + 1 := by omega
      set s1 := saldo - (cuota - saldo * tasa) - lookup periodo with hs1def
      set s2 := if s1 < 0 then 0 else s1 with hs2def
      set c2 := if b = true ∧ 0 < lookup periodo ∧ 1 / 100 < s2 ∧ 0 < n - periodo then
          calcular_cuota_frances s2 tasa (n - periodo) else cuota with hc2def
      have hstep : s1 ≤ valorPresente cuota tasa (n - periodo) := by
        have h2 := @valorPresente_succ ℚ _ _ cuota tasa (le_of_lt htasa) (n - periodo)
        have h3 : saldo * (1 + tasa) ≤
            valorPresente cuota tasa ((n - periodo) + 1) * (1 + tasa) := by
          rw [← hm]
          exact mul_le_mul_of_nonneg_right hs (by linarith)
        rw [hs1def]
        nlinarith [hlook periodo]
      have hsaldo2 : s2 ≤ valorPresente cuota tasa (n - periodo) := by
        rw [hs2def]
        split
        · exact valorPresente_nonneg (le_of_lt htasa) (le_of_lt hc) _
        · exact hstep
      have hc2 : 0 < c2 := by
        rw [hc2def]
        split
        · rename_i hcond
          exact cuota_pos (le_of_lt htasa)
            (lt_trans (by norm_num) hcond.2.2.1) (by omega)
        · exact hc
      have hs2le : s2 ≤ valorPresente c2 tasa (n - periodo) := by
        rw [hc2def]
        split
        · rename_i hcond
          have hrest : 1 ≤ n - periodo := hcond.2.2.2
          rw [cuota_PV (le_of_lt htasa) hrest]
        · exact hsaldo2
      have hrec := ih (periodo + 1) (fecha + dias) s2 c2 hc2 (by
        have hidx : n + 1 - (periodo + 1) = n - periodo := by omega
        rw [hidx]
        exact hs2le)
      simp only [List.length_cons]
      omega
    · simp

theorem abonosDict_nonneg {abonos : List Abono} (h : ∀ a ∈ abonos, 0 ≤ a.monto)
    (p : ℕ) : 0 ≤ abonosDict abonos p := by
  unfold abonosDict
  cases oeq : (abonos.filter (fun a => a.periodo = p)).getLast? with
  | none => simp
  | some a =>
    simp only [Option.map_some', Option.getD_some]
    exact h a (List.mem_of_mem_filter (List.mem_of_mem_getLast? (Option.mem_def.mpr oeq)))

theorem abonosDict_append_ne {abonos : List Abono} {q j : ℕ} (monto : ℚ) (hne : j ≠ q) :
    abonosDict (abonos ++ [⟨q, monto⟩]) j = abonosDict abonos j := by
  unfold abonosDict
  rw [List.filter_append]
  have h : List.filter (fun a => a.periodo = j) [(⟨q, monto⟩ : Abono)] = [] := by
    simp only [List.filter_cons, List.filter_nil, decide_eq_true_eq]
    rw [if_neg (fun hc => hne hc.symm)]
  rw [h, List.append_nil]

/-- Claim C4 (amended): with a positive period rate, positive initial balance,
nominal term of at least one period and non-negative extraordinary payments,
both replay strategies finish at or before the original nominal term: each
schedule has at most nominalPeriodCount rows.  The reduce-installment
schedule does not always have exactly that many rows (an abono that retires
the balance ends it early), and the reduce-term schedule does not always end
strictly earlier (a tiny abono leaves the row count unchanged). -/
theorem C4_amended {saldo_inicial tasa_periodo : ℚ} {n : ℕ} {abonos : List Abono}
    (f : Frecuencia) (hs : 0 < saldo_inicial) (ht : 0 < tasa_periodo) (hn : 1 ≤ n)
    (hab : ∀ a ∈ abonos, 0 ≤ a.monto) :
    (aplicar_abonos_reducir_cuota saldo_inicial tasa_periodo n abonos f).length ≤ n ∧
    (aplicar_abonos_reducir_plazo saldo_inicial tasa_periodo n abonos f).length ≤ n := by
  have hc : 0 < calcular_cuota_frances saldo_inicial tasa_periodo n :=
    cuota_pos (le_of_lt ht) hs hn
  have hsle : saldo_inicial ≤
      valorPresente (calcular_cuota_frances saldo_inicial tasa_periodo n) tasa_periodo
        (n + 1 - 1) := by
    have h1 : n + 1 - 1 = n := by omega
    rw [h1, cuota_PV (le_of_lt ht) hn]
  constructor
  · rw [aplicar_abonos_reducir_cuota, List.length_map]
    have := abonosLoop_length_bound ht (abonosDict_nonneg hab) true
      (diasPorPeriodo f) (2 * n) 1 0 saldo_inicial _ hc hsle
    omega
  · rw [aplicar_abonos_reducir_plazo, List.length_map]
    have := abonosLoop_length_bound ht (abonosDict_nonneg hab) false
      (diasPorPeriodo f) (2 * n) 1 0 saldo_inicial _ hc hsle
    omega

theorem C4_witness :
    (aplicar_abonos_reducir_cuota 1000 (1 / 10) 3 [⟨2, 50⟩] .mensual).length ≤ 3 ∧
    (aplicar_abonos_reducir_plazo 1000 (1 / 10) 3 [⟨2, 50⟩] .mensual).length ≤ 3 :=
  C4_amended .mensual (by norm_num) (by norm_num) (by norm_num)
    (by intro a ha; simp only [List.mem_singleton] at ha; subst ha; norm_num)

/-- Claim C4 (counterexample): for initial balance 1000, period rate 1/10,
nominal term 3 and the single positive extraordinary payment of 1/1000 at
period 2, the reduce-term replay still produces a 3-row schedule, not one
that ends strictly before the original nominal term. -/
theorem C4_counterexample :
    (0 : ℚ) < 1 / 1000 ∧ (0 : ℚ) < 1 / 10 ∧
    (aplicar_abonos_reducir_plazo 1000 (1 / 10) 3 [⟨2, 1 / 1000⟩] .mensual).length = 3 := by
  refine ⟨by norm_num, by norm_num, ?_⟩
  norm_num [aplicar_abonos_reducir_plazo, abonosLoop, abonosDict, calcular_cuota_frances,
    List.filter]

/-- Claim C5 (amended): in the two replay strategies of backend/abonos.py the
negative overshoot IS absorbed: every step keeps a pre-rounding balance ≥ 0,
and on a step whose raw recurrence goes below zero the stored balance is
exactly 0 and the principal portion absorbs the excess, becoming
previous balance minus the extraordinary payment; consequently every emitted
row of both strategies has Saldo ≥ 0.  In recalcular_tabla_con_abonos
(backend/calculos.py) the balance is merely clamped at 0 WITHOUT adjusting
Abono_Capital (see the counterexample), and in the generator the emitted
balance is floored at 0 via max. -/
theorem C5_amended (tasa : ℚ) (lookup : ℕ → ℚ) (n : ℕ) (b : Bool) (dias : ℤ)
    (fuel periodo : ℕ) (fecha : ℤ) (saldo cuota saldo_inicial tasa_periodo : ℚ)
    (np : ℕ) (abonos : List Abono) (f : Frecuencia) :
    (∀ paso ∈ abonosLoop tasa lookup n b dias fuel periodo fecha saldo cuota,
      0 ≤ paso.saldo ∧
      (paso.saldo_previo - (paso.cuota - paso.interes) - paso.abono_extra < 0 →
        paso.saldo = 0 ∧ paso.abono_capital = paso.saldo_previo - paso.abono_extra)) ∧
    (∀ fila ∈ aplicar_abonos_reducir_cuota saldo_inicial tasa_periodo np abonos f,
      0 ≤ fila.saldo) ∧
    (∀ fila ∈ aplicar_abonos_reducir_plazo saldo_inicial tasa_periodo np abonos f,
      0 ≤ fila.saldo) := by
  refine ⟨abonosLoop_absorcion tasa lookup n b dias fuel periodo fecha saldo cuota, ?_, ?_⟩
  · intro fila hf
    rw [aplicar_abonos_reducir_cuota] at hf
    rcases List.mem_map.mp hf with ⟨p, _, rfl⟩
    exact redondear_nonneg (le_max_left 0 _)
  · intro fila hf
    rw [aplicar_abonos_reducir_plazo] at hf
    rcases List.mem_map.mp hf with ⟨p, _, rfl⟩
    exact redondear_nonneg (le_max_left 0 _)

theorem C5_witness :
    (∀ paso ∈ abonosLoop (1 / 10) (abonosDict [⟨1, 70⟩]) 2 true 30 4 1 0 100
        (calcular_cuota_frances 100 (1 / 10) 2),
      0 ≤ paso.saldo ∧
      (paso.saldo_previo - (paso.cuota - paso.interes) - paso.abono_extra < 0 →
        paso.saldo = 0 ∧ paso.abono_capital = paso.saldo_previo - paso.abono_extra)) ∧
    (∀ fila ∈ aplicar_abonos_reducir_cuota 100 (1 / 10) 2 [⟨1, 70⟩] .mensual,
      0 ≤ fila.saldo) ∧
    (∀ fila ∈ aplicar_abonos_reducir_plazo 100 (1 / 10) 2 [⟨1, 70⟩] .mensual,
      0 ≤ fila.saldo) :=
  C5_amended (1 / 10) (abonosDict [⟨1, 70⟩]) 2 true 30 4 1 0 100
    (calcular_cuota_frances 100 (1 / 10) 2) 100 (1 / 10) 2 [⟨1, 70⟩] .mensual

/-- Claim C5 (counterexample): the 2-period table generated for principal
100, period rate 1/10 (generator loop with its own installment), replayed by
recalcular_tabla_con_abonos with a 70 extraordinary payment at period 1,
overshoots below zero (100 - 47.62 - 70 < 0); the emitted row has balance 0
but its Abono_Capital stays 47.62 instead of absorbing the excess (which
would give 100 - 70 = 30): the negative excess is NOT absorbed into the
principal portion. -/
theorem C5_counterexample :
    genLoop ((1 : ℚ) / 10) (calcular_cuota_frances 100 (1 / 10) 2) 30 2 1 0 100 =
      [⟨1, 30, 5762 / 100, 10, 4762 / 100, 0, 5238 / 100⟩,
       ⟨2, 60, 5762 / 100, 524 / 100, 5238 / 100, 0, 0⟩] ∧
    recalcular_tabla_con_abonos
      [⟨1, 30, 5762 / 100, 10, 4762 / 100, 0, 5238 / 100⟩,
       ⟨2, 60, 5762 / 100, 524 / 100, 5238 / 100, 0, 0⟩]
      [⟨1, 70⟩] (1 / 10) .reducir_cuota =
      [⟨1, 30, 5762 / 100, 10, 4762 / 100, 70, 0⟩] ∧
    ((100 : ℚ) - (5762 / 100 - 10) - 70 < 0) ∧
    ((4762 / 100 : ℚ) ≠ 100 - 70) := by
  have hcu : calcular_cuota_frances (100 : ℚ) (1 / 10) 2 = 1210 / 21 := by
    norm_num [calcular_cuota_frances]
  have r1 : redondear_decimal ((1210 : ℚ) / 21) = 5762 / 100 := by
    rw [redondear_decimal, if_pos (by norm_num)]
    rw [show (⌊(1210 : ℚ) / 21 * 100 + 1 / 2⌋ : ℤ) = 5762 from by
      norm_num [Int.floor_eq_iff]]
    norm_num
  have r2 : redondear_decimal ((10 : ℚ)) = 10 := by
    rw [redondear_decimal, if_pos (by norm_num)]
    rw [show (⌊(10 : ℚ) * 100 + 1 / 2⌋ : ℤ) = 1000 from by
      norm_num [Int.floor_eq_iff]]
    norm_num
  have r3 : redondear_decimal ((1000 : ℚ) / 21) = 4762 / 100 := by
    rw [redondear_decimal, if_pos (by norm_num)]
    rw [show (⌊(1000 : ℚ) / 21 * 100 + 1 / 2⌋ : ℤ) = 4762 from by
      norm_num [Int.floor_eq_iff]]
    norm_num
  have r4 : redondear_decimal ((1100 : ℚ) / 21) = 5238 / 100 := by
    rw [redondear_decimal, if_pos (by norm_num)]
    rw [show (⌊(1100 : ℚ) / 21 * 100 + 1 / 2⌋ : ℤ) = 5238 from by
      norm_num [Int.floor_eq_iff]]
    norm_num
  have r5 : redondear_decimal ((110 : ℚ) / 21) = 524 / 100 := by
    rw [redondear_decimal, if_pos (by norm_num)]
    rw [show (⌊(110 : ℚ) / 21 * 100 + 1 / 2⌋ : ℤ) = 524 from by
      norm_num [Int.floor_eq_iff]]
    norm_num
  have r6 : redondear_decimal ((5762 : ℚ) / 100) = 5762 / 100 := by
    rw [redondear_decimal, if_pos (by norm_num)]
    rw [show (⌊(5762 : ℚ) / 100 * 100 + 1 / 2⌋ : ℤ) = 5762 from by
      norm_num [Int.floor_eq_iff]]
    norm_num
  have r7 : redondear_decimal ((4762 : ℚ) / 100) = 4762 / 100 := by
    rw [redondear_decimal, if_pos (by norm_num)]
    rw [show (⌊(4762 : ℚ) / 100 * 100 + 1 / 2⌋ : ℤ) = 4762 from by
      norm_num [Int.floor_eq_iff]]
    norm_num
  have r8 : redondear_decimal ((70 : ℚ)) = 70 := by
    rw [redondear_decimal, if_pos (by norm_num)]
    rw [show (⌊(70 : ℚ) * 100 + 1 / 2⌋ : ℤ) = 7000 from by
      norm_num [Int.floor_eq_iff]]
    norm_num
  have r0 : redondear_decimal ((0 : ℚ)) = 0 := redondear_zero
  have r6b : redondear_decimal ((2881 : ℚ) / 50) = 2881 / 50 := by
    rw [show (2881 : ℚ) / 50 = 5762 / 100 from by norm_num]
    exact r6
  have r7b : redondear_decimal ((2381 : ℚ) / 50) = 2381 / 50 := by
    rw [show (2381 : ℚ) / 50 = 4762 / 100 from by norm_num]
    exact r7
  refine ⟨?_, ?_, by norm_num, by norm_num⟩
  · rw [hcu]
    norm_num [genLoop, r1, r2, r3, r4, r5, r0, max_eq_right]
  · norm_num [recalcular_tabla_con_abonos, recalcLoop, abonosDict, List.filter,
      r2, r6, r7, r6b, r7b, r8, r0, max_eq_right]

theorem abonosLoop_congr_lookup {tasa : ℚ} {lf lg : ℕ → ℚ} {n : ℕ} {b : Bool} {dias : ℤ}
    {q : ℕ} (hagree : ∀ j, j < q → lf j = lg j) :
    ∀ (fuel periodo : ℕ) (fecha : ℤ) (saldo cuota : ℚ),
      periodo + (abonosLoop tasa lf n b dias fuel periodo fecha saldo cuota).length ≤ q →
      abonosLoop tasa lg n b dias fuel periodo fecha saldo cuota =
        abonosLoop tasa lf n b dias fuel periodo fecha saldo cuota := by
  intro fuel
  induction fuel with
  | zero => intro periodo fecha saldo cuota _; rfl
  | succ k ih =>
    intro periodo fecha saldo cuota hlen
    by_cases hg : 1 / 100 < saldo
    · simp only [abonosLoop, if_pos hg] at hlen ⊢
      simp only [List.length_cons] at hlen
      have hper : periodo < q := by omega
      rw [show lg periodo = lf periodo from (hagree periodo hper).symm]
      congr 1
      exact ih (periodo + 1) (fecha + dias) _ _ (by omega)
    · simp only [abonosLoop, if_neg hg]

/-- Claim C10 (amended): an extraordinary payment whose target period lies
strictly after the final period of the replay without it (the period at
which the balance falls to the 0.01 tolerance) is silently ignored: adding
it to the payment list leaves both replay schedules unchanged, so it appears
in no emitted row.  A payment targeted AT the final period is applied, not
ignored (see the counterexample). -/
theorem C10_amended (saldo_inicial tasa_periodo : ℚ) (n : ℕ) (abonos : List Abono)
    (q : ℕ) (monto : ℚ) (f : Frecuencia)
    (hqc : (aplicar_abonos_reducir_cuota saldo_inicial tasa_periodo n abonos f).length < q)
    (hqp : (aplicar_abonos_reducir_plazo saldo_inicial tasa_periodo n abonos f).length < q) :
    aplicar_abonos_reducir_cuota saldo_inicial tasa_periodo n (abonos ++ [⟨q, monto⟩]) f =
      aplicar_abonos_reducir_cuota saldo_inicial tasa_periodo n abonos f ∧
    aplicar_abonos_reducir_plazo saldo_inicial tasa_periodo n (abonos ++ [⟨q, monto⟩]) f =
      aplicar_abonos_reducir_plazo saldo_inicial tasa_periodo n abonos f := by
  have hagree : ∀ j, j < q → abonosDict abonos j = abonosDict (abonos ++ [⟨q, monto⟩]) j :=
    fun j hj => (abonosDict_append_ne monto (Nat.ne_of_lt hj)).symm
  rw [aplicar_abonos_reducir_cuota, List.length_map] at hqc
  rw [aplicar_abonos_reducir_plazo, List.length_map] at hqp
  constructor
  · rw [aplicar_abonos_reducir_cuota, aplicar_abonos_reducir_cuota]
    congr 1
    exact abonosLoop_congr_lookup hagree (2 * n) 1 0 saldo_inicial _ (by omega)
  · rw [aplicar_abonos_reducir_plazo, aplicar_abonos_reducir_plazo]
    congr 1
    exact abonosLoop_congr_lookup hagree (2 * n) 1 0 saldo_inicial _ (by omega)

theorem C10_witness :
    aplicar_abonos_reducir_cuota 1000 (1 / 10) 3 ([] ++ [⟨5, 7⟩]) .mensual =
      aplicar_abonos_reducir_cuota 1000 (1 / 10) 3 [] .mensual ∧
    aplicar_abonos_reducir_plazo 1000 (1 / 10) 3 ([] ++ [⟨5, 7⟩]) .mensual =
      aplicar_abonos_reducir_plazo 1000 (1 / 10) 3 [] .mensual :=
  C10_amended 1000 (1 / 10) 3 [] 5 7 .mensual
    (by norm_num [aplicar_abonos_reducir_cuota, abonosLoop, abonosDict,
      calcular_cuota_frances, List.filter])
    (by norm_num [aplicar_abonos_reducir_plazo, abonosLoop, abonosDict,
      calcular_cuota_frances, List.filter])

/-- Claim C10 (counterexample): for balance 1000, period rate 1/10, nominal
term 3 and a payment of 10 targeted at period 3 — exactly the period at
which the balance falls to the 0.01 tolerance, in the replay both with and
without that payment — the payment is NOT ignored: it appears in the third
emitted row's Abono_Extra column, so the schedule differs from the replay
without it. -/
theorem C10_counterexample :
    ((aplicar_abonos_reducir_plazo 1000 (1 / 10) 3 [] .mensual).map Fila.abono_extra =
      [0, 0, 0]) ∧
    ((aplicar_abonos_reducir_plazo 1000 (1 / 10) 3 [⟨3, 10⟩] .mensual).map
      Fila.abono_extra = [0, 0, 10]) ∧
    ((10 : ℚ) ≠ 0) := by
  have r0 : redondear_decimal ((0 : ℚ)) = 0 := redondear_zero
  have r10 : redondear_decimal ((10 : ℚ)) = 10 := by
    rw [redondear_decimal, if_pos (by norm_num)]
    rw [show (⌊(10 : ℚ) * 100 + 1 / 2⌋ : ℤ) = 1000 from by
      norm_num [Int.floor_eq_iff]]
    norm_num
  refine ⟨?_, ?_, by norm_num⟩
  · norm_num [aplicar_abonos_reducir_plazo, abonosLoop, abonosDict,
      calcular_cuota_frances, List.filter, Paso.toFila, r0, r10]
  · norm_num [aplicar_abonos_reducir_plazo, abonosLoop, abonosDict,
      calcular_cuota_frances, List.filter, Paso.toFila, r0, r10]

theorem chain_chain' {β : Type} {R : β → β → Prop} {a : β} {l : List β}
    (h : List.Chain R a l) : List.Chain' R l := by
  cases l with
  | nil => trivial
  | cons b t => exact (List.chain_cons.mp h).2

theorem chain_head {β : Type} {R : β → β → Prop} {a : β} {l : List β}
    (h : List.Chain R a l) : ∀ x ∈ l.head?, R a x := by
  intro x hx
  cases l with
  | nil => simp at hx
  | cons b t =>
    simp only [List.head?_cons, Option.mem_def, Option.some.injEq] at hx
    subst hx
    exact (List.chain_cons.mp h).1

theorem genLoop_saldo_chain {tasa cuota P : α} (ht : 0 ≤ tasa) (hP : 0 ≤ P)
    (hPc : P * tasa ≤ cuota) (dias : ℤ) :
    ∀ (rem periodo : ℕ) (fecha : ℤ) (saldo : α), saldo ≤ P →
      List.Chain (fun a b => b ≤ a) (redondear_decimal (max 0 saldo))
        ((genLoop tasa cuota dias rem periodo fecha saldo).map Fila.saldo) := by
  intro rem
  induction rem with
  | zero => intro periodo fecha saldo _; exact List.Chain.nil
  | succ k ih =>
    intro periodo fecha saldo hs
    simp only [genLoop]
    set s1 := saldo - (cuota - saldo * tasa) with hs1def
    have hs1le : s1 ≤ saldo := by
      have h2 : saldo * tasa ≤ P * tasa := mul_le_mul_of_nonneg_right hs ht
      rw [hs1def]
      linarith
    set s2 := if k = 0 ∧ |s1| < 1 / 100 then 0 else s1 with hs2def
    have hhead : redondear_decimal (max 0 s2) ≤ redondear_decimal (max 0 saldo) := by
      rw [hs2def]
      split
      · rw [max_self, redondear_zero]
        exact redondear_nonneg (le_max_left 0 saldo)
      · exact redondear_mono (max_le_max le_rfl hs1le)
    have hs2P : s2 ≤ P := by
      rw [hs2def]
      split
      · exact hP
      · exact le_trans hs1le hs
    split
    · simp only [List.map_cons, List.map_nil]
      exact List.Chain.cons hhead List.Chain.nil
    · simp only [List.map_cons]
      exact List.Chain.cons hhead (ih (periodo + 1) (fecha + dias) s2 hs2P)

theorem genLoop_saldo_last {tasa cuota : α} (ht : 0 ≤ tasa) (hc : 0 < cuota) (dias : ℤ) :
    ∀ (rem periodo : ℕ) (fecha : ℤ), 1 ≤ rem →
      ((genLoop tasa cuota dias rem periodo fecha (valorPresente cuota tasa rem)).map
        Fila.saldo).getLast? = some 0 := by
  intro rem
  induction rem with
  | zero => intro periodo fecha h; exact absurd h (by omega)
  | succ k ih =>
    intro periodo fecha _
    simp only [genLoop]
    have hstep : valorPresente cuota tasa (k + 1) -
        (cuota - valorPresente cuota tasa (k + 1) * tasa) = valorPresente cuota tasa k := by
      have h2 := @valorPresente_succ α _ _ cuota tasa ht k
      linarith
    rw [hstep]
    rcases Nat.eq_zero_or_pos k with hk0 | hkpos
    · subst hk0
      rw [valorPresente_zero]
      rw [ite_self, if_pos (le_refl (0 : α))]
      simp only [List.map_cons, List.map_nil, List.getLast?_singleton]
      rw [max_self, redondear_zero]
    · have hsnap : ¬(k = 0 ∧ |valorPresente cuota tasa k| < 1 / 100) := by
        intro h
        exact absurd h.1 (by omega)
      rw [if_neg hsnap]
      have hpos : 0 < valorPresente cuota tasa k := valorPresente_pos ht hc hkpos
      rw [if_neg (not_le.mpr hpos)]
      rw [List.map_cons]
      have hrec := ih (periodo + 1) (fecha + dias) hkpos
      cases hm : (genLoop tasa cuota dias k (periodo + 1) (fecha + dias)
          (valorPresente cuota tasa k)).map Fila.saldo with
      | nil => rw [hm] at hrec; simp at hrec
      | cons b t =>
        rw [hm] at hrec
        rw [List.getLast?_cons_cons]
        exact hrec

theorem convertir_tasa_efectiva_nonneg {t : ℝ} (ht : 0 ≤ t) (fo fd : Frecuencia) :
    0 ≤ convertir_tasa_efectiva t fo fd := by
  unfold convertir_tasa_efectiva
  have h1 : (1 : ℝ) ≤ 1 + t := by linarith
  have h2 : (0 : ℝ) ≤ ((fd.meses / fo.meses : ℚ) : ℝ) := by
    have h3 : (0 : ℚ) < Frecuencia.meses fd := by cases fd <;> norm_num [Frecuencia.meses]
    have h4 : (0 : ℚ) < Frecuencia.meses fo := by cases fo <;> norm_num [Frecuencia.meses]
    have h5 : (0 : ℚ) ≤ fd.meses / fo.meses := le_of_lt (div_pos h3 h4)
    exact_mod_cast h5
  linarith [Real.one_le_rpow h1 h2]

theorem tasaPeriodoDe_nonneg {tasa : ℝ} (ht : 0 ≤ tasa) (tt : TipoTasa) (tp : TipoPago)
    (fp ft : Frecuencia) : 0 ≤ tasaPeriodoDe tasa tt tp fp ft := by
  have hdec : (0 : ℝ) ≤ tasa / 100 := by positivity
  have hnom : ∀ m : ℕ, 0 ≤ convertir_nominal_a_efectiva (tasa / 100) m := by
    intro m
    unfold convertir_nominal_a_efectiva
    have hx : (0 : ℝ) ≤ tasa / 100 / m := by positivity
    have h1 : (1 : ℝ) ≤ (1 + tasa / 100 / m) ^ m := one_le_pow₀ (by linarith)
    linarith
  have hant : ∀ x : ℝ, 0 ≤ x → 0 ≤ convertir_anticipada_a_vencida x := by
    intro x hx
    unfold convertir_anticipada_a_vencida
    have h1 : (0 : ℝ) < 1 + x := by linarith
    positivity
  unfold tasaPeriodoDe
  cases tt <;> cases tp <;> dsimp only <;> split <;>
    apply convertir_tasa_efectiva_nonneg <;>
    first
      | exact hant _ (hnom _)
      | exact hnom _
      | exact hant _ hdec
      | exact hdec

/-- Claim C2 (amended): for every schedule generated from valid parameters
(positive principal, annual rate percentage in [0, 100], term giving at
least one period at the chosen payment frequency) the emitted balance
column is monotonically non-increasing, and the first row's balance is at
most the principal ROUNDED to cents (so at most the principal itself
whenever the principal is a whole-cent amount; an off-grid principal can be
exceeded by rounding, see the counterexample). -/
theorem C2_amended (monto tasa : ℝ) (tt : TipoTasa) (tp : TipoPago) (plazo : ℕ)
    (fp ft : Frecuencia) (hm : 0 < monto) (ht0 : 0 ≤ tasa) (ht1 : tasa ≤ 100)
    (hn : 1 ≤ nPeriodos plazo fp) :
    List.Chain' (fun a b => b ≤ a)
      ((generar_tabla_amortizacion monto tasa tt tp plazo fp ft).map Fila.saldo) ∧
    (∀ fila ∈ (generar_tabla_amortizacion monto tasa tt tp plazo fp ft).head?,
      fila.saldo ≤ redondear_decimal monto) := by
  have hr : 0 ≤ tasaPeriodoDe tasa tt tp fp ft := tasaPeriodoDe_nonneg ht0 tt tp fp ft
  have hPc : monto * tasaPeriodoDe tasa tt tp fp ft ≤
      calcular_cuota_frances monto (tasaPeriodoDe tasa tt tp fp ft) (nPeriodos plazo fp) :=
    cuota_ge_interes hr (le_of_lt hm) hn
  have hchain := genLoop_saldo_chain hr (le_of_lt hm) hPc (diasPorPeriodo fp)
    (nPeriodos plazo fp) 1 0 monto le_rfl
  rw [show max (0 : ℝ) monto = monto from max_eq_right (le_of_lt hm)] at hchain
  constructor
  · simp only [generar_tabla_amortizacion]
    exact chain_chain' hchain
  · intro fila hf
    simp only [generar_tabla_amortizacion] at hf
    apply chain_head hchain
    rw [List.head?_map]
    rw [Option.mem_def] at hf
    rw [Option.mem_def, hf]
    rfl

/-- Claim C3: for every schedule generated from a positive principal, a
non-negative annual rate and a term compatible with the payment frequency
(at least one period), the last emitted row exists and its Saldo is 0
within the 0.01 tolerance (with exact field arithmetic it is exactly 0). -/
theorem C3_final_closure (monto tasa : ℝ) (tt : TipoTasa) (tp : TipoPago) (plazo : ℕ)
    (fp ft : Frecuencia) (hm : 0 < monto) (ht0 : 0 ≤ tasa)
    (hn : 1 ≤ nPeriodos plazo fp) :
    ∃ s : ℝ, ((generar_tabla_amortizacion monto tasa tt tp plazo fp ft).map
      Fila.saldo).getLast? = some s ∧ |s| ≤ 1 / 100 := by
  refine ⟨0, ?_, by norm_num⟩
  have hr : 0 ≤ tasaPeriodoDe tasa tt tp fp ft := tasaPeriodoDe_nonneg ht0 tt tp fp ft
  have hcpos : 0 < calcular_cuota_frances monto (tasaPeriodoDe tasa tt tp fp ft)
      (nPeriodos plazo fp) := cuota_pos hr hm hn
  have hlast := genLoop_saldo_last hr hcpos (diasPorPeriodo fp) (nPeriodos plazo fp) 1 0 hn
  rw [cuota_PV hr hn] at hlast
  simp only [generar_tabla_amortizacion]
  exact hlast

theorem nPeriodos_mensual_12 : nPeriodos 12 .mensual = 12 := by
  rw [nPeriodos]
  rw [show ((12 : ℕ) : ℚ) / Frecuencia.meses .mensual = 12 from by
    norm_num [Frecuencia.meses]]
  simp

theorem nPeriodos_anual_240 : nPeriodos 240 .anual = 20 := by
  rw [nPeriodos]
  rw [show ((240 : ℕ) : ℚ) / Frecuencia.meses .anual = 20 from by
    norm_num [Frecuencia.meses]]
  simp

theorem C2_witness :
    List.Chain' (fun a b => b ≤ a)
      ((generar_tabla_amortizacion 1000 12 .efectiva .vencida 12 .mensual .anual).map
        Fila.saldo) ∧
    (∀ fila ∈ (generar_tabla_amortizacion 1000 12 .efectiva .vencida 12 .mensual
        .anual).head?, fila.saldo ≤ redondear_decimal (1000 : ℝ)) :=
  C2_amended 1000 12 .efectiva .vencida 12 .mensual .anual (by norm_num) (by norm_num)
    (by norm_num) (by rw [nPeriodos_mensual_12]; norm_num)

theorem C3_witness :
    ∃ s : ℝ, ((generar_tabla_amortizacion 1000 12 .efectiva .vencida 12 .mensual
      .anual).map Fila.saldo).getLast? = some s ∧ |s| ≤ 1 / 100 :=
  C3_final_closure 1000 12 .efectiva .vencida 12 .mensual .anual (by norm_num)
    (by norm_num) (by rw [nPeriodos_mensual_12]; norm_num)

theorem genLoop_head {tasa cuota : α} (dias : ℤ) (rem periodo : ℕ) (fecha : ℤ)
    (saldo : α) :
    (genLoop tasa cuota dias (rem + 1) periodo fecha saldo).head? = some
      ⟨periodo, fecha + dias, redondear_decimal cuota, redondear_decimal (saldo * tasa),
       redondear_decimal (cuota - saldo * tasa), 0,
       redondear_decimal (max 0 (if rem = 0 ∧ |saldo - (cuota - saldo * tasa)| < 1 / 100
         then 0 else saldo - (cuota - saldo * tasa)))⟩ := by
  simp only [genLoop]
  split
  · split
    · rfl
    · rfl
  · split
    · rfl
    · rfl

/-- Claim C2 (counterexample): the parameters principal = 0.0051, rate 100
percent effective due, term 240 months, annual payments, annual rate
quotation are valid (positive principal, rate in [0,100], 20 periods), yet
the first emitted row's Saldo is 0.01, which exceeds the principal 0.0051:
rounding to cents lifts the balance above an off-grid principal, refuting
row[1].Saldo ≤ principal. -/
theorem C2_counterexample :
    (0 : ℝ) < 51 / 10000 ∧ (0 : ℝ) ≤ 100 ∧ (100 : ℝ) ≤ 100 ∧ 1 ≤ nPeriodos 240 .anual ∧
    ∃ fila, (generar_tabla_amortizacion (51 / 10000) 100 .efectiva .vencida 240 .anual
      .anual).head? = some fila ∧ fila.saldo = 1 / 100 ∧ (51 / 10000 : ℝ) < fila.saldo := by
  have hrate : tasaPeriodoDe 100 .efectiva .vencida .anual .anual = 1 := by
    simp only [tasaPeriodoDe, convertir_tasa_efectiva]
    norm_num [Frecuencia.meses, Real.rpow_one]
  refine ⟨by norm_num, by norm_num, by norm_num, by rw [nPeriodos_anual_240]; norm_num, ?_⟩
  simp only [generar_tabla_amortizacion, hrate, nPeriodos_anual_240]
  rw [show (20 : ℕ) = 19 + 1 from rfl, genLoop_head]
  refine ⟨_, rfl, ?_, ?_⟩
  · show redondear_decimal _ = 1 / 100
    rw [if_neg (fun hcon => absurd hcon.1 (by norm_num))]
    have hcu : calcular_cuota_frances ((51 : ℝ) / 10000) 1 (19 + 1) =
        53477376 / 10485750000 := by
      norm_num [calcular_cuota_frances]
    rw [hcu]
    rw [show max (0 : ℝ) (51 / 10000 - (53477376 / 10485750000 - 51 / 10000 * 1)) =
        51 / 10000 - (53477376 / 10485750000 - 51 / 10000 * 1) from
      max_eq_right (by norm_num)]
    rw [redondear_decimal, if_pos (by norm_num)]
    rw [show (⌊((51 : ℝ) / 10000 - (53477376 / 10485750000 - 51 / 10000 * 1)) * 100 +
        1 / 2⌋ : ℤ) = 1 from by
      rw [Int.floor_eq_iff]
      constructor
      · push_cast
        norm_num
      · push_cast
        norm_num]
    norm_num
  · show (51 / 10000 : ℝ) < redondear_decimal _
    rw [if_neg (fun hcon => absurd hcon.1 (by norm_num))]
    have hcu : calcular_cuota_frances ((51 : ℝ) / 10000) 1 (19 + 1) =
        53477376 / 10485750000 := by
      norm_num [calcular_cuota_frances]
    rw [hcu]
    rw [show max (0 : ℝ) (51 / 10000 - (53477376 / 10485750000 - 51 / 10000 * 1)) =
        51 / 10000 - (53477376 / 10485750000 - 51 / 10000 * 1) from
      max_eq_right (by norm_num)]
    rw [redondear_decimal, if_pos (by norm_num)]
    rw [show (⌊((51 : ℝ) / 10000 - (53477376 / 10485750000 - 51 / 10000 * 1)) * 100 +
        1 / 2⌋ : ℤ) = 1 from by
      rw [Int.floor_eq_iff]
      constructor
      · push_cast
        norm_num
      · push_cast
        norm_num]
    norm_num

theorem rpow_c1_pow12 : ((28 / 25 : ℝ) ^ ((1 : ℝ) / 12)) ^ (12 : ℕ) = 28 / 25 := by
  rw [← Real.rpow_natCast ((28 / 25 : ℝ) ^ ((1 : ℝ) / 12)) 12]
  rw [← Real.rpow_mul (by norm_num)]
  norm_num

theorem rpow_c1_lower : (10094887929 / 10000000000 : ℝ) < (28 / 25 : ℝ) ^ ((1 : ℝ) / 12) := by
  by_contra hcon
  push_neg at hcon
  have h1 : ((28 / 25 : ℝ) ^ ((1 : ℝ) / 12)) ^ (12 : ℕ) ≤
      (10094887929 / 10000000000 : ℝ) ^ (12 : ℕ) :=
    pow_le_pow_left (Real.rpow_nonneg (by norm_num) _) hcon 12
  rw [rpow_c1_pow12] at h1
  norm_num at h1

theorem rpow_c1_upper : (28 / 25 : ℝ) ^ ((1 : ℝ) / 12) < (1009488793 / 1000000000 : ℝ) := by
  by_contra hcon
  push_neg at hcon
  have h1 : (1009488793 / 1000000000 : ℝ) ^ (12 : ℕ) ≤
      ((28 / 25 : ℝ) ^ ((1 : ℝ) / 12)) ^ (12 : ℕ) :=
    pow_le_pow_left (by norm_num) hcon 12
  rw [rpow_c1_pow12] at h1
  norm_num at h1

theorem generar_head_concrete :
    ∃ fila, (generar_tabla_amortizacion 100000 12 .nominal .vencida 12 .mensual
      .anual).head? = some fila ∧ fila.cuota = 885621 / 100 := by
  have hrate : tasaPeriodoDe 12 .nominal .vencida .mensual .anual =
      (28 / 25 : ℝ) ^ ((1 : ℝ) / 12) - 1 := by
    simp only [tasaPeriodoDe, convertir_tasa_efectiva, convertir_nominal_a_efectiva]
    norm_num [Frecuencia.meses]
  have hrpos : (0 : ℝ) < (28 / 25 : ℝ) ^ ((1 : ℝ) / 12) - 1 := by
    have := rpow_c1_lower
    nlinarith
  have hval : calcular_cuota_frances (100000 : ℝ) ((28 / 25 : ℝ) ^ ((1 : ℝ) / 12) - 1) 12 =
      2800000 / 3 * ((28 / 25 : ℝ) ^ ((1 : ℝ) / 12) - 1) := by
    rw [calcular_cuota_frances, if_neg (ne_of_gt hrpos)]
    rw [show (1 + ((28 / 25 : ℝ) ^ ((1 : ℝ) / 12) - 1)) = (28 / 25 : ℝ) ^ ((1 : ℝ) / 12)
      from by ring]
    rw [rpow_c1_pow12]
    ring
  have hh := @genLoop_head ℝ _ _ ((28 / 25 : ℝ) ^ ((1 : ℝ) / 12) - 1)
    (calcular_cuota_frances (100000 : ℝ) ((28 / 25 : ℝ) ^ ((1 : ℝ) / 12) - 1) 12)
    (diasPorPeriodo .mensual) 11 1 0 100000
  rw [show (11 : ℕ) + 1 = 12 from rfl] at hh
  simp only [generar_tabla_amortizacion, hrate, nPeriodos_mensual_12]
  rw [hh]
  refine ⟨_, rfl, ?_⟩
  show redondear_decimal (calcular_cuota_frances (100000 : ℝ)
    ((28 / 25 : ℝ) ^ ((1 : ℝ) / 12) - 1) 12) = 885621 / 100
  rw [hval, redondear_decimal, if_pos (by nlinarith [rpow_c1_lower])]
  rw [show (⌊(2800000 / 3 * ((28 / 25 : ℝ) ^ ((1 : ℝ) / 12) - 1)) * 100 + 1 / 2⌋ : ℤ) =
      885621 from by
    rw [Int.floor_eq_iff]
    constructor
    · push_cast
      nlinarith [rpow_c1_lower]
    · push_cast
      nlinarith [rpow_c1_upper]]
  norm_num

/-- Claim C1 (counterexample): for principal 100000, annual rate 12 percent
nominal, due timing, 12 months, monthly payments, annual rate quotation, the
period-1 installment emitted by generar_tabla_amortizacion is 8856.21, which
is NOT within 0.01 of the 8884.88 predicted by the spec: the code uses
compounding count m = 1 for the annual quotation frequency (m_map maps
"anual" to 1), so the effective annual rate is 0.12, not (1+0.12/12)^12-1. -/
theorem C1_counterexample :
    ∃ fila, (generar_tabla_amortizacion 100000 12 .nominal .vencida 12 .mensual
      .anual).head? = some fila ∧ ¬(|fila.cuota - 8884.88| ≤ 1 / 100) := by
  obtain ⟨fila, hf, hc⟩ := generar_head_concrete
  refine ⟨fila, hf, ?_⟩
  rw [hc]
  rw [abs_le]
  push_neg
  intro h
  norm_num at h

/-- Claim C1 (amended): for the same input the period-1 row's installment
(Cuota) is exactly 8856.21: with the annual rate quotation the code uses
compounding count m = 1, so the effective annual rate is (1+0.12/1)^1-1 =
0.12, the monthly period rate is 1.12^(1/12)-1 (about 0.0094888), and the
unrounded installment is (2800000/3)(1.12^(1/12)-1), about 8856.2067. -/
theorem C1_amended :
    ∃ fila, (generar_tabla_amortizacion 100000 12 .nominal .vencida 12 .mensual
      .anual).head? = some fila ∧ fila.cuota = 885621 / 100 :=
  generar_head_concrete

theorem genLoop_interes_eq {tasa cuota : α} (ht : 0 ≤ tasa) (hc : 0 < cuota) (dias : ℤ) :
    ∀ (rem periodo : ℕ) (fecha : ℤ),
      (genLoop tasa cuota dias rem periodo fecha (valorPresente cuota tasa rem)).map
        Fila.interes =
      (List.range rem).map
        (fun j => redondear_decimal (valorPresente cuota tasa (rem - j) * tasa)) := by
  intro rem
  induction rem with
  | zero => intro periodo fecha; simp [genLoop]
  | succ k ih =>
    intro periodo fecha
    simp only [genLoop]
    have hstep : valorPresente cuota tasa (k + 1) -
        (cuota - valorPresente cuota tasa (k + 1) * tasa) = valorPresente cuota tasa k := by
      have h2 := @valorPresente_succ α _ _ cuota tasa ht k
      linarith
    rw [hstep]
    rcases Nat.eq_zero_or_pos k with hk0 | hkpos
    · subst hk0
      rw [valorPresente_zero]
      rw [ite_self, if_pos (le_refl (0 : α))]
      simp only [List.map_cons, List.map_nil]
      simp [List.range_succ]
    · have hsnap : ¬(k = 0 ∧ |valorPresente cuota tasa k| < 1 / 100) := by
        intro h
        exact absurd h.1 (by omega)
      rw [if_neg hsnap]
      have hpos : 0 < valorPresente cuota tasa k := valorPresente_pos ht hc hkpos
      rw [if_neg (not_le.mpr hpos)]
      rw [List.map_cons, ih (periodo + 1) (fecha + dias)]
      rw [List.range_succ_eq_map]
      simp only [List.map_cons, List.map_map]
      rw [show ((fun j => redondear_decimal (valorPresente cuota tasa (k + 1 - j) * tasa)) ∘
          Nat.succ) =
          (fun j => redondear_decimal (valorPresente cuota tasa (k - j) * tasa)) from
        funext fun j => by
          simp only [Function.comp_apply, Nat.succ_eq_add_one]
          rw [show k + 1 - (j + 1) = k - j from by omega]]
      norm_num

theorem abonosLoop_interes_sum_le {tasa : ℚ} (htasa : 0 < tasa) {lookup : ℕ → ℚ}
    (hlook : ∀ p, 0 ≤ lookup p) {n : ℕ} (b : Bool) (dias : ℤ) {cmax : ℚ}
    (hcmax : 0 < cmax) :
    ∀ (fuel periodo : ℕ) (fecha : ℤ) (saldo cuota : ℚ),
      0 < cuota → cuota ≤ cmax → saldo ≤ valorPresente cuota tasa (n + 1 - periodo) →
      ((abonosLoop tasa lookup n b dias fuel periodo fecha saldo cuota).map
        (fun p => redondear_decimal p.interes)).sum ≤
      ((List.range (n + 1 - periodo)).map
        (fun j => redondear_decimal (valorPresente cmax tasa (n + 1 - periodo - j) *
          tasa))).sum := by
  have hterm : ∀ m j : ℕ, 0 ≤ redondear_decimal (valorPresente cmax tasa (m - j) * tasa) :=
    fun m j => redondear_nonneg
      (mul_nonneg (valorPresente_nonneg (le_of_lt htasa) (le_of_lt hcmax) _)
        (le_of_lt htasa))
  have hsum : ∀ m : ℕ, 0 ≤ ((List.range m).map
      (fun j => redondear_decimal (valorPresente cmax tasa (m - j) * tasa))).sum := by
    intro m
    apply List.sum_nonneg
    intro x hx
    rcases List.mem_map.mp hx with ⟨j, _, rfl⟩
    exact hterm m j
  intro fuel
  induction fuel with
  | zero =>
    intro periodo fecha saldo cuota _ _ _
    simp only [abonosLoop, List.map_nil, List.sum_nil]
    exact hsum _
  | succ k ih =>
    intro periodo fecha saldo cuota hc hcle hs
    simp only [abonosLoop]
    split
    · rename_i hg
      have hpn : periodo ≤ n := by
        by_contra hcon
        have h0 : n + 1 - periodo = 0 := by omega
        rw [h0, valorPresente_zero] at hs
        linarith
      have hm : n + 1 - periodo = (n - periodo) + 1 := by omega
      set s1 := saldo - (cuota - saldo * tasa) - lookup periodo with hs1def
      set s2 := if s1 < 0 then 0 else s1 with hs2def
      set c2 := if b = true ∧ 0 < lookup periodo ∧ 1 / 100 < s2 ∧ 0 < n - periodo then
          calcular_cuota_frances s2 tasa (n - periodo) else cuota with hc2def
      have hstep : s1 ≤ valorPresente cuota tasa (n - periodo) := by
        have h2 := @valorPresente_succ ℚ _ _ cuota tasa (le_of_lt htasa) (n - periodo)
        have h3 : saldo * (1 + tasa) ≤
            valorPresente cuota tasa ((n - periodo) + 1) * (1 + tasa) := by
          rw [← hm]
          exact mul_le_mul_of_nonneg_right hs (by linarith)
        rw [hs1def]
        nlinarith [hlook periodo]
      have hsaldo2 : s2 ≤ valorPresente cuota tasa (n - periodo) := by
        rw [hs2def]
        split
        · exact valorPresente_nonneg (le_of_lt htasa) (le_of_lt hc) _
        · exact hstep
      have hs2nonneg : 0 ≤ s2 := by
        rw [hs2def]
        split
        · exact le_refl 0
        · rename_i hno
          exact le_of_not_lt hno
      have hc2pos : 0 < c2 := by
        rw [hc2def]
        split
        · rename_i hcond
          exact cuota_pos (le_of_lt htasa)
            (lt_trans (by norm_num) hcond.2.2.1) (by omega)
        · exact hc
      have hc2le : c2 ≤ cmax := by
        rw [hc2def]
        split
        · rename_i hcond
          have hrest : 1 ≤ n - periodo := hcond.2.2.2
          calc calcular_cuota_frances s2 tasa (n - periodo) ≤
              calcular_cuota_frances (valorPresente cuota tasa (n - periodo)) tasa
                (n - periodo) :=
              cuota_mono (le_of_lt htasa) hsaldo2 hrest
            _ = cuota := PV_cuota (le_of_lt htasa) hrest
            _ ≤ cmax := hcle
        · exact hcle
      have hs2le : s2 ≤ valorPresente c2 tasa (n - periodo) := by
        rw [hc2def]
        split
        · rename_i hcond
          have hrest : 1 ≤ n - periodo := hcond.2.2.2
          rw [cuota_PV (le_of_lt htasa) hrest]
        · exact hsaldo2
      have hrec := ih (periodo + 1) (fecha + dias) s2 c2 hc2pos hc2le (by
        have hidx : n + 1 - (periodo + 1) = n - periodo := by omega
        rw [hidx]
        exact hs2le)
      have hidx : n + 1 - (periodo + 1) = n - periodo := by omega
      rw [hidx] at hrec
      have hhead : redondear_decimal (saldo * tasa) ≤
          redondear_decimal (valorPresente cmax tasa ((n - periodo) + 1) * tasa) := by
        apply redondear_mono
        apply mul_le_mul_of_nonneg_right
        · calc saldo ≤ valorPresente cuota tasa (n + 1 - periodo) := hs
            _ ≤ valorPresente cmax tasa (n + 1 - periodo) :=
              valorPresente_mono (le_of_lt htasa) hcle _
            _ = valorPresente cmax tasa ((n - periodo) + 1) := by rw [hm]
        · exact le_of_lt htasa
      rw [hm, List.range_succ_eq_map]
      simp only [List.map_cons, List.map_map, List.sum_cons]
      have hfun : ((fun j => redondear_decimal (valorPresente cmax tasa
          ((n - periodo) + 1 - j) * tasa)) ∘ Nat.succ) =
          (fun j => redondear_decimal (valorPresente cmax tasa ((n - periodo) - j) *
            tasa)) :=
        funext fun j => by
          simp only [Function.comp_apply, Nat.succ_eq_add_one]
          rw [show (n - periodo) + 1 - (j + 1) = (n - periodo) - j from by omega]
      rw [hfun]
      apply add_le_add
      · simpa using hhead
      · exact hrec
    · simp only [List.map_nil, List.sum_nil]
      exact hsum _

/-- Claim C7: for every baseline schedule (the generator loop run on the
credit's principal, period rate and term) and every schedule with abonos
over the same credit produced by either replay strategy — positive period
rate, positive principal, at least one period, non-negative extraordinary
payments of which at least one is positive — the savings comparison yields
ahorro_intereses (total interest without abonos minus total interest with
abonos, over the emitted rounded Interes columns) that is at least 0. -/
theorem C7_savings_nonneg (P r : ℚ) (n : ℕ) (abonos : List Abono) (f : Frecuencia)
    (hP : 0 < P) (hr : 0 < r) (hn : 1 ≤ n)
    (hab : ∀ a ∈ abonos, 0 ≤ a.monto) (hpos : ∃ a ∈ abonos, 0 < a.monto) :
    0 ≤ (calcular_ahorro_por_abonos
      (genLoop r (calcular_cuota_frances P r n) (diasPorPeriodo f) n 1 0 P)
      (aplicar_abonos_reducir_cuota P r n abonos f)).ahorro_intereses ∧
    0 ≤ (calcular_ahorro_por_abonos
      (genLoop r (calcular_cuota_frances P r n) (diasPorPeriodo f) n 1 0 P)
      (aplicar_abonos_reducir_plazo P r n abonos f)).ahorro_intereses := by
  have hc0pos : 0 < calcular_cuota_frances P r n := cuota_pos (le_of_lt hr) hP hn
  have hbase0 := genLoop_interes_eq (le_of_lt hr) hc0pos (diasPorPeriodo f) n 1 0
  rw [cuota_PV (le_of_lt hr) hn] at hbase0
  have hsle : P ≤ valorPresente (calcular_cuota_frances P r n) r (n + 1 - 1) := by
    rw [show n + 1 - 1 = n from by omega, cuota_PV (le_of_lt hr) hn]
  have hidx : n + 1 - 1 = n := by omega
  have habono1 := abonosLoop_interes_sum_le hr (abonosDict_nonneg hab) true
    (diasPorPeriodo f) hc0pos (2 * n) 1 0 P (calcular_cuota_frances P r n)
    hc0pos le_rfl hsle
  rw [hidx] at habono1
  have habono2 := abonosLoop_interes_sum_le hr (abonosDict_nonneg hab) false
    (diasPorPeriodo f) hc0pos (2 * n) 1 0 P (calcular_cuota_frances P r n)
    hc0pos le_rfl hsle
  rw [hidx] at habono2
  have hwrap1 : ((aplicar_abonos_reducir_cuota P r n abonos f).map Fila.interes) =
      (abonosLoop r (abonosDict abonos) n true (diasPorPeriodo f) (2 * n) 1 0 P
        (calcular_cuota_frances P r n)).map
        (fun p => redondear_decimal p.interes) := by
    rw [aplicar_abonos_reducir_cuota, List.map_map]
    apply List.map_congr_left
    intro p _
    rfl
  have hwrap2 : ((aplicar_abonos_reducir_plazo P r n abonos f).map Fila.interes) =
      (abonosLoop r (abonosDict abonos) n false (diasPorPeriodo f) (2 * n) 1 0 P
        (calcular_cuota_frances P r n)).map
        (fun p => redondear_decimal p.interes) := by
    rw [aplicar_abonos_reducir_plazo, List.map_map]
    apply List.map_congr_left
    intro p _
    rfl
  constructor
  · simp only [calcular_ahorro_por_abonos]
    apply redondear_nonneg
    rw [sub_nonneg, hbase0, hwrap1]
    exact habono1
  · simp only [calcular_ahorro_por_abonos]
    apply redondear_nonneg
    rw [sub_nonneg, hbase0, hwrap2]
    exact habono2

theorem C7_witness :
    0 ≤ (calcular_ahorro_por_abonos
      (genLoop (1 / 10) (calcular_cuota_frances 1000 (1 / 10) 3)
        (diasPorPeriodo .mensual) 3 1 0 1000)
      (aplicar_abonos_reducir_cuota 1000 (1 / 10) 3 [⟨1, 100⟩] .mensual)).ahorro_intereses ∧
    0 ≤ (calcular_ahorro_por_abonos
      (genLoop (1 / 10) (calcular_cuota_frances 1000 (1 / 10) 3)
        (diasPorPeriodo .mensual) 3 1 0 1000)
      (aplicar_abonos_reducir_plazo 1000 (1 / 10) 3 [⟨1, 100⟩] .mensual)).ahorro_intereses :=
  C7_savings_nonneg 1000 (1 / 10) 3 [⟨1, 100⟩] .mensual (by norm_num) (by norm_num)
    (by norm_num)
    (by intro a ha; simp only [List.mem_singleton] at ha; subst ha; norm_num)
    ⟨⟨1, 100⟩, by simp, by norm_num⟩

end FinSight
